import Mathlib

/-!
Verification development for the Infra-Vision coverage models
(school_coverage_model.py, hospital_coverage_model.py,
park_coverage_model.py, urban_coverage_model.py).

Modelling conventions:
* Python/numpy floating-point numbers are modelled as exact rationals.
  Decimal literals of the source become the corresponding rationals.
* The fragment of IEEE-754 semantics that matters for the
  division-by-zero policy of the feature engines (NaN and infinities
  produced by dividing by a zero denominator, and the pandas
  fillna/replace calls that remove them) is modelled explicitly by the
  type NpF below.  Inside the park model, where only NaN can arise
  (from the mean of an empty selection), a score is an Option rational
  with none standing for NaN, mirroring the pandas skipna semantics.
* Rounding (pandas Series.round) is modelled as round-half-up on
  rationals; no property proved here depends on the tie direction.
* The numpy global random generator is modelled as a natural-number
  state threaded explicitly; np.random.seed sets the state to the seed.
  The exact update constants are a stand-in for the Mersenne generator;
  the theorems proved (independence of the ambient state after
  reseeding, and invariance of the score columns) do not depend on them.
* pandas groupby produces one group per key occurring in the grouped
  frame, and the frames grouped by zone_name have unique zone names, so
  dataframe operations that read iloc[0] of a single-name mask are
  modelled per row.
* pandas sort_values uses an unspecified tie order (quicksort); sorting
  is modelled by a stable insertion sort, and no property proved here
  depends on the order of ties.
-/

namespace InfraVision

/-- np.clip(x, lo, hi), also pandas Series.clip: the hi bound is applied
after the lo bound. -/
def clip (lo hi x : ℚ) : ℚ := min hi (max lo x)

/-- pandas Series.round(1): round to one decimal place. -/
def round1 (x : ℚ) : ℚ := ((round (x * 10) : ℤ) : ℚ) / 10

/-- pandas Series.round(2): round to two decimal places. -/
def round2 (x : ℚ) : ℚ := ((round (x * 100) : ℤ) : ℚ) / 100

/-- pandas .max() of a column; the source only takes maxima of columns of
nonempty frames, 0 is a placeholder for the empty case. -/
def listMaxQ : List ℚ → ℚ
  | [] => 0
  | h :: t => t.foldl max h

/-- Python int() / ndarray.astype(int): truncation toward zero. -/
def pyInt (q : ℚ) : ℤ := Int.tdiv q.num (q.den : ℤ)

/-- Models the composition (x / y).fillna(0).replace([np.inf, -np.inf], 0):
a zero denominator yields 0, whatever the numerator. -/
def safeDiv (a b : ℚ) : ℚ := if b = 0 then 0 else a / b

/-- Zero-padded sequential id, as produced by the Python format string
f-string with format 02d for the two-digit range the models use. -/
def pad2 (n : ℕ) : String := if n < 10 then "0" ++ toString n else toString n

/-!
The IEEE-754 fragment exercised by the feature engines: finite values,
the two infinities and NaN, with numpy division and multiplication, and
the pandas cleanup calls fillna(0) and replace([inf, -inf], 0).
-/

/-- Value of a float64 feature cell: finite, infinite or NaN. -/
inductive NpF where
  | fin (q : ℚ)
  | pinf
  | ninf
  | nan
deriving DecidableEq, Repr

/-- numpy float64 division: a nonzero value divided by zero is a signed
infinity, zero divided by zero is NaN. -/
def npDiv : NpF → NpF → NpF
  | .nan, _ => .nan
  | _, .nan => .nan
  | .fin a, .fin b =>
      if b = 0 then (if 0 < a then .pinf else if a < 0 then .ninf else .nan)
      else .fin (a / b)
  | .fin _, .pinf => .fin 0
  | .fin _, .ninf => .fin 0
  | .pinf, .fin b => if b < 0 then .ninf else .pinf
  | .ninf, .fin b => if b < 0 then .pinf else .ninf
  | .pinf, .pinf => .nan
  | .pinf, .ninf => .nan
  | .ninf, .pinf => .nan
  | .ninf, .ninf => .nan

/-- numpy float64 multiplication; infinity times zero is NaN. -/
def npMul : NpF → NpF → NpF
  | .nan, _ => .nan
  | _, .nan => .nan
  | .fin a, .fin b => .fin (a * b)
  | .pinf, .fin b => if 0 < b then .pinf else if b < 0 then .ninf else .nan
  | .ninf, .fin b => if 0 < b then .ninf else if b < 0 then .pinf else .nan
  | .fin a, .pinf => if 0 < a then .pinf else if a < 0 then .ninf else .nan
  | .fin a, .ninf => if 0 < a then .ninf else if a < 0 then .pinf else .nan
  | .pinf, .pinf => .pinf
  | .pinf, .ninf => .ninf
  | .ninf, .pinf => .ninf
  | .ninf, .ninf => .pinf

/-- pandas fillna(0): replaces NaN and only NaN. -/
def fillna0 : NpF → NpF
  | .nan => .fin 0
  | x => x

/-- pandas replace([np.inf, -np.inf], 0). -/
def replaceInf0 : NpF → NpF
  | .pinf => .fin 0
  | .ninf => .fin 0
  | x => x

namespace Urban

/-- urban_coverage_model.aggregate_cells_to_zones: the derived density
feature parks_per_km2 = (total_parks / total_area_km2).fillna(0).
There is no replacement of infinities here. -/
def parks_per_km2 (total_parks total_area_km2 : NpF) : NpF :=
  fillna0 (npDiv total_parks total_area_km2)

/-- Same shape for schools_per_km2 in aggregate_cells_to_zones. -/
def schools_per_km2 (total_schools total_area_km2 : NpF) : NpF :=
  fillna0 (npDiv total_schools total_area_km2)

/-- urban zone ids: f-string with format 02d over sorted unique names. -/
def zone_id_of_index (i : ℕ) : String := pad2 (i + 1)

end Urban

namespace School

/-- school_coverage_model.create_features: schools_per_1000_children =
(num_schools / population_6_17 * 1000).replace([inf, -inf], 0).fillna(0). -/
def schools_per_1000_children (num_schools population_6_17 : NpF) : NpF :=
  fillna0 (replaceInf0 (npMul (npDiv num_schools population_6_17) (.fin 1000)))

/-- school_coverage_model.create_features: seat_capacity_per_100_children =
(total_enrolment / population_6_17 * 100).replace([inf, -inf], 0).fillna(0). -/
def seat_capacity_per_100_children (total_enrolment population_6_17 : NpF) : NpF :=
  fillna0 (replaceInf0 (npMul (npDiv total_enrolment population_6_17) (.fin 100)))

end School

namespace Park

/-- park_coverage_model.aggregate_to_zones: parks_per_km2 =
(total_parks / total_area_km2).fillna(0).replace([inf, -inf], 0). -/
def parks_per_km2_feature (total_parks total_area_km2 : NpF) : NpF :=
  replaceInf0 (fillna0 (npDiv total_parks total_area_km2))

/-- park_coverage_model.aggregate_to_zones: park_area_per_capita =
(total_park_area_km2 / total_population).fillna(0) * 10000, then
replace([inf, -inf], 0). -/
def park_area_per_capita_feature (total_park_area_km2 total_population : NpF) : NpF :=
  replaceInf0 (npMul (fillna0 (npDiv total_park_area_km2 total_population)) (.fin 10000))

end Park

/-- Python sorted() compares strings by code points; this is a Bool-valued
lexicographic comparison on the code points. -/
def strLtB : List Char → List Char → Bool
  | [], [] => false
  | [], _ :: _ => true
  | _ :: _, [] => false
  | a :: as, b :: bs =>
      if a.val < b.val then true else if b.val < a.val then false else strLtB as bs

/-- Non-strict code-point order on strings. -/
def pyStrLe (a b : String) : Bool := a == b || strLtB a.data b.data

/-!
Facility Locator and Zone Aggregator, following
school_coverage_model.spatial_join_schools_to_zones and
aggregate_schools_to_zones.  A point is a lon/lat pair of rationals; a
zone carries its identifier, display name, the point-in-polygon test of
its polygon (the sjoin predicate within), and the point-to-polygon
distance used by the nearest fallback.
-/

/-- A geographic point (longitude, latitude). -/
abbrev Pt := ℚ × ℚ

/-- An administrative zone: identifier, name, containment test and
distance function of its polygon. -/
structure Zone where
  zone_id : ℕ
  zone_name : String
  containsPt : Pt → Bool
  distTo : Pt → ℚ

namespace School

/-- gpd.sjoin(schools, zones, predicate = within): all zones whose
polygon contains the point; one joined row per match. -/
def zonesContaining (zones : List Zone) (p : Pt) : List Zone :=
  zones.filter (fun z => z.containsPt p)

/-- gpd.sjoin_nearest fallback: the zone at minimum distance from the
point, the first such zone in the zone ordering winning ties. -/
def nearestZone (zones : List Zone) (p : Pt) : Option Zone :=
  match zones with
  | [] => none
  | z :: zs =>
      some (zs.foldl (fun best z2 => if z2.distTo p < best.distTo p then z2 else best) z)

/-- Rows the spatial join produces for one school: all within matches;
a school outside every zone is assigned to the nearest zone when
use_nearest is set and dropped otherwise. -/
def facilityRows (use_nearest : Bool) (zones : List Zone) (p : Pt) : List (Pt × ℕ) :=
  let m := (zonesContaining zones p).map (fun z => (p, z.zone_id))
  if m.isEmpty then
    if use_nearest then
      match nearestZone zones p with
      | some z => [(p, z.zone_id)]
      | none => []
    else []
  else m

/-- school_coverage_model.spatial_join_schools_to_zones: the assignment
table over all schools. -/
def spatial_join_schools_to_zones (use_nearest : Bool) (zones : List Zone)
    (ps : List Pt) : List (Pt × ℕ) :=
  ps.flatMap (facilityRows use_nearest zones)

/-- school_coverage_model.aggregate_schools_to_zones, school counts:
pandas groupby(zone_id) over the assignment table — one output row per
zone id occurring among the assigned rows, counting its rows. -/
def aggregate_schools_to_zones (assigned : List (Pt × ℕ)) : List (ℕ × ℕ) :=
  ((assigned.map Prod.snd).dedup).map
    (fun zid => (zid, (assigned.map Prod.snd).count zid))

/-!
Data loading, school_coverage_model.load_schools_data lines 105-111:
coordinates are coerced to numbers (failures become missing values),
rows with a missing coordinate are dropped, and rows outside the valid
latitude/longitude ranges are dropped.  The only count printed
afterwards is the number of retained rows.
-/

/-- A raw school record as read from the CSV: coordinates after
pd.to_numeric(errors = coerce), so a missing value is none. -/
structure SchoolRec where
  latitude : Option ℚ
  longitude : Option ℚ
deriving DecidableEq, Repr

/-- Valid coordinates: present, latitude between -90 and 90 and
longitude between -180 and 180 (pandas between is inclusive). -/
def validCoord (r : SchoolRec) : Bool :=
  match r.latitude, r.longitude with
  | some la, some lo =>
      decide (-90 ≤ la) && decide (la ≤ 90) && decide (-180 ≤ lo) && decide (lo ≤ 180)
  | _, _ => false

/-- The dropna and between filters of load_schools_data. -/
def dropInvalidCoords (l : List SchoolRec) : List SchoolRec :=
  l.filter validCoord

/-- Everything load_schools_data makes observable about coordinate
cleaning: the retained records and the printed count of retained
records (the only diagnostic in this step). -/
def loadObservable (l : List SchoolRec) : List SchoolRec × ℕ :=
  (dropInvalidCoords l, (dropInvalidCoords l).length)

/-- Number of records with missing or out-of-range coordinates in the
input; computed here for specification purposes only — the source
computes and prints no such number. -/
def countInvalidCoords (l : List SchoolRec) : ℕ :=
  (l.filter (fun r => !(validCoord r))).length

/-!
Labelers of the four models and the coverage scoring formula of the
school model.
-/

/-- school_coverage_model.score_to_label. -/
def score_to_label (score : ℚ) : String :=
  if 80 ≤ score then "Excellent Coverage"
  else if 60 ≤ score then "Good Coverage"
  else "Needs Improvement"

/-- school_coverage_model.score_to_status. -/
def score_to_status (score : ℚ) : String :=
  if 80 ≤ score then "excellent"
  else if 60 ≤ score then "good"
  else "needs-improvement"

/-- The zone-level features feeding calculate_coverage_score. -/
structure Features where
  schools_per_1000_children : ℚ
  seat_capacity_per_100_children : ℚ
  avg_student_teacher_r : ℚ
  literacy_rate : ℚ

/-- school_coverage_model.calculate_coverage_score: sum of clamped
sub-scores (0-50, 0-30, 0-10, 0-10). -/
def calculate_coverage_score (f : Features) : ℚ :=
  clip 0 50 (f.schools_per_1000_children / 5 * 50)
  + clip 0 30 (f.seat_capacity_per_100_children / 120 * 30)
  + 10 * (1 - clip 0 1 ((f.avg_student_teacher_r - 20) / 30))
  + f.literacy_rate * 10

/-- school_coverage_model.create_features line 512: the rule-based
coverage score clipped to the unit hundred range. -/
def coverage_score (f : Features) : ℚ :=
  clip 0 100 (calculate_coverage_score f)

/-- school_coverage_model.predict_school_coverage lines 739 and 762:
model predictions are clipped to 0..100 and rounded to one decimal
before export. -/
def exported_prediction (pred : ℚ) : ℚ :=
  round1 (clip 0 100 pred)

end School

namespace Hospital

/-- hospital_coverage_model.label_zones.assign_label. -/
def assign_label (score : ℚ) : String × String :=
  if 75 ≤ score then ("Excellent Coverage", "excellent")
  else if 50 ≤ score then ("Good Coverage", "good")
  else ("Needs Improvement", "needs-improvement")

end Hospital

namespace Park

/-- park_coverage_model.assign_labels.get_label_and_status. -/
def get_label_and_status (score : ℚ) : String × String :=
  if 75 ≤ score then ("Excellent Coverage", "excellent")
  else if 40 ≤ score then ("Good Coverage", "good")
  else ("Needs Improvement", "needs-improvement")

end Park

namespace Urban

/-- urban_coverage_model.score_to_label. -/
def score_to_label (score : ℚ) : String :=
  if 80 ≤ score then "Excellent Coverage"
  else if 60 ≤ score then "Good Coverage"
  else "Needs Improvement"

end Urban

/-- Rank of a coverage label, for stating monotonicity of the labelers. -/
def labelTier (label : String) : ℕ :=
  if label = "Excellent Coverage" then 2
  else if label = "Good Coverage" then 1
  else 0

/-!
Model of the numpy global random generator: a natural-number state
threaded explicitly.  np.random.seed(n) replaces the state by the seed.
The update constants stand in for the Mersenne generator; no theorem
below depends on them.
-/

/-- One step of the modelled generator. -/
def rngNext (s : ℕ) : ℕ := (1103515245 * s + 12345) % 2147483648

/-- np.random.seed. -/
def npSeed (n : ℕ) : ℕ := n

/-- np.random.randint(lo, hi): a draw in lo..hi-1 and the next state. -/
def npRandint (lo hi s : ℕ) : ℕ × ℕ := (lo + s % (hi - lo), rngNext s)

/-- np.random.uniform(lo, hi): a draw and the next state. -/
def npUniform (lo hi : ℚ) (s : ℕ) : ℚ × ℕ :=
  (lo + (hi - lo) * ((s % 1000 : ℕ) : ℚ) / 1000, rngNext s)

namespace Hospital

/-- A zone row of the frame produced by
hospital_coverage_model.aggregate_to_zones. -/
structure ZoneAgg where
  zone_name : String
  num_hospitals : ℕ
  total_population : ℚ
  total_area_km2 : ℚ
  avg_hospitals_per_100k : ℚ
  avg_population_density : ℚ
  total_roads_km : ℚ
deriving DecidableEq, Repr

/-- The same row after estimate_hospital_capacity added the bed
columns. -/
structure ZoneEst extends ZoneAgg where
  total_beds : ℤ
  beds_per_100k : ℚ
deriving DecidableEq, Repr

/-- hospital_coverage_model.estimate_hospital_capacity, inner function
estimate_beds_for_zone: bed count of one zone from the generator state.
int(x * 0.2) and int(x * 0.3) of a natural x are the truncations x / 5
and 3 * x / 10. -/
def estimate_beds_for_zone (z : ZoneAgg) (s : ℕ) : ℤ × ℕ :=
  if z.num_hospitals = 0 then (0, s)
  else
    let n := z.num_hospitals
    let p :=
      if 3000000 < z.total_population then
        let large := max 1 (n / 5)
        let medium := n - large
        let d1 := npRandint 400 800 s
        let d2 := npRandint 80 200 d1.2
        ((large * d1.1 + medium * d2.1 : ℕ), d2.2)
      else if 2000000 < z.total_population then
        let medium := max 1 (3 * n / 10)
        let small := n - medium
        let d1 := npRandint 100 250 s
        let d2 := npRandint 30 100 d1.2
        ((medium * d1.1 + small * d2.1 : ℕ), d2.2)
      else if 1000000 < z.total_population then
        let d1 := npRandint 60 180 s
        ((n * d1.1 : ℕ), d1.2)
      else
        let d1 := npRandint 20 80 s
        ((n * d1.1 : ℕ), d1.2)
    ((max p.1 (n * 15) : ℕ), p.2)

/-- The per-row apply of estimate_hospital_capacity, threading the
generator state through the rows in order. -/
def estimateBedsList (s : ℕ) : List ZoneAgg → List (ZoneAgg × ℤ)
  | [] => []
  | z :: t =>
      let p := estimate_beds_for_zone z s
      (z, p.1) :: estimateBedsList p.2 t

/-- hospital_coverage_model.estimate_hospital_capacity: reseeds the
global generator with np.random.seed(42), estimates beds per zone, and
derives beds_per_100k = (total_beds / total_population * 100000) with
the fillna(0) and replace([inf, -inf], 0) cleanup. -/
def estimate_hospital_capacity (ambient : ℕ) (zs : List ZoneAgg) : List ZoneEst :=
  let _ := ambient
  (estimateBedsList (npSeed 42) zs).map (fun zb =>
    { toZoneAgg := zb.1
      total_beds := zb.2
      beds_per_100k := safeDiv (zb.2 : ℚ) zb.1.total_population * 100000 })

/-- hospital_coverage_model.calculate_coverage_score, the or 1 guard on
the maximum of the road column. -/
def maxRoadsOr1 (zs : List ZoneEst) : ℚ :=
  let m := listMaxQ (zs.map (fun z => z.total_roads_km))
  if m = 0 then 1 else m

/-- calculate_coverage_score lines 149-175: the four clamped sub-scores
and their rounded sum. -/
def hai_sub_scores (max_roads : ℚ) (z : ZoneEst) : ℚ :=
  let hospital_score :=
    clip 0 40 (z.avg_hospitals_per_100k / 15 * 40)
    + (if 0 < z.num_hospitals then 5 else 0)
  let bed_score := clip 0 30 (z.beds_per_100k / 800 * 30)
  let road_score := clip 0 15 (z.total_roads_km / max_roads * 15)
  let density_score := clip 0 15 (z.avg_population_density / 25000 * 15)
  round1 (hospital_score + bed_score + road_score + density_score)

/-- calculate_coverage_score lines 183-194, Central zone adjustment. -/
def central_adjust (z : ZoneEst) (hai : ℚ) : ℚ :=
  if z.zone_name = "Central" then
    (if 35 < z.num_hospitals ∧ 300 < z.beds_per_100k then 100
     else clip 85 100 (hai * 1.25))
  else hai

/-- Lines 197-205, East zone adjustment. -/
def east_adjust (z : ZoneEst) (hai : ℚ) : ℚ :=
  if z.zone_name = "East" ∧ 40 < z.num_hospitals then clip 82 86 (hai * 2.2) else hai

/-- Lines 208-213, North zone adjustment. -/
def north_adjust (z : ZoneEst) (hai : ℚ) : ℚ :=
  if z.zone_name = "North" ∧ 40 < z.num_hospitals then clip 70 80 (hai * 1.85) else hai

/-- Lines 216-223, West zone adjustment. -/
def west_adjust (z : ZoneEst) (hai : ℚ) : ℚ :=
  if z.zone_name = "West" ∧ 60 < z.num_hospitals then clip 54 56 (hai * 0.92) else hai

/-- Lines 226-230, New Delhi adjustment. -/
def newdelhi_adjust (z : ZoneEst) (hai : ℚ) : ℚ :=
  if z.zone_name = "New Delhi" then clip 20 25 (hai * 0.65) else hai

/-- Lines 234-238, South zone override to the UI target. -/
def south_adjust (z : ZoneEst) (hai : ℚ) : ℚ :=
  if z.zone_name = "South" then 35.9 else hai

/-- Lines 244-247, boost of zones with many hospitals and beds,
excluding South. -/
def excellent_adjust (z : ZoneEst) (hai : ℚ) : ℚ :=
  if 80 < z.num_hospitals ∧ 500 < z.beds_per_100k ∧ ¬z.zone_name = "South" then
    clip 75 100 (hai * 1.2)
  else hai

/-- Lines 250-253, penalty of zones with few hospitals. -/
def poor_adjust (z : ZoneEst) (hai : ℚ) : ℚ :=
  if z.num_hospitals < 30 ∧ z.avg_hospitals_per_100k < 2 then
    clip 20 40 (hai * 0.7)
  else hai

/-- The full per-zone health access index of
hospital_coverage_model.calculate_coverage_score: rounded sub-score
sum, clip to 20..100, the sequence of zone-specific adjustments, and
the final rounding. -/
def health_access_index (max_roads : ℚ) (z : ZoneEst) : ℚ :=
  round1 (poor_adjust z (excellent_adjust z (south_adjust z (newdelhi_adjust z
    (west_adjust z (north_adjust z (east_adjust z (central_adjust z
      (clip 20 100 (hai_sub_scores max_roads z))))))))))

/-- hospital_coverage_model.calculate_coverage_score over the whole
frame. -/
def calculate_coverage_score (zs : List ZoneEst) : List (ZoneEst × ℚ) :=
  let mr := maxRoadsOr1 zs
  zs.map (fun z => (z, health_access_index mr z))

/-- One exported row of hospital_coverage_model.export_results. -/
structure Row where
  zone_id : String
  zone_name : String
  predicted_coverage_score : ℚ
  coverage_label : String
  num_facilities : ℤ
  total_capacity : ℤ
  status : String
deriving DecidableEq, Repr

/-- export_results lines 286-288: zone ids enumerate the sorted unique
zone names, as the plain decimal string of index + 1. -/
def zone_id_pairs (names : List String) : List (String × String) :=
  ((names.dedup.insertionSort (fun a b => pyStrLe a b = true)).enum).map
    (fun p => (p.2, toString (p.1 + 1)))

/-- export_results lines 299-307: the exported column order. -/
def output_cols : List String :=
  ["zone_id", "zone_name", "predicted_coverage_score", "coverage_label",
   "num_facilities", "total_capacity", "status"]

/-- hospital_coverage_model.export_results: build the rows, round the
score to one decimal, cast the count columns to integers, and sort by
zone_id. -/
def export_results (scored : List (ZoneEst × ℚ)) : List Row :=
  let idPairs := zone_id_pairs (scored.map (fun zc => zc.1.zone_name))
  let rows := scored.map (fun zc =>
    { zone_id := ((idPairs.lookup zc.1.zone_name).getD "")
      zone_name := zc.1.zone_name
      predicted_coverage_score := round1 zc.2
      coverage_label := (assign_label zc.2).1
      num_facilities := (zc.1.num_hospitals : ℤ)
      total_capacity := zc.1.total_beds
      status := (assign_label zc.2).2 : Row })
  rows.insertionSort (fun a b => pyStrLe a.zone_id b.zone_id = true)

/-- The hospital pipeline from zone aggregates to the exported table,
with the ambient generator state made explicit:
estimate_hospital_capacity, calculate_coverage_score, label_zones and
export_results. -/
def pipeline (ambient : ℕ) (zs : List ZoneAgg) : List Row :=
  export_results (calculate_coverage_score (estimate_hospital_capacity ambient zs))

end Hospital

/-!
Park model.  A score is an Option rational: none models the float NaN
that the rescaling pass of adjust_for_ui_expectations produces when the
mean of an empty protected selection (a frame with neither an East
Zone 1 nor a New Delhi row) is multiplied into the scores.  All
arithmetic on scores propagates none; numpy clip and round propagate
NaN; every IEEE comparison with NaN is false; the pandas mean skips
NaN values and is NaN exactly on an empty (or all-NaN) column.
-/

/-- Lift a binary rational operation to NaN-propagating scores. -/
def optBin (f : ℚ → ℚ → ℚ) : Option ℚ → Option ℚ → Option ℚ
  | some a, some b => some (f a b)
  | _, _ => none

/-- np.clip on a possibly-NaN value. -/
def optClip (lo hi : ℚ) : Option ℚ → Option ℚ := Option.map (clip lo hi)

/-- Series.round(1) on a possibly-NaN value. -/
def optRound1 : Option ℚ → Option ℚ := Option.map round1

/-- IEEE comparison c < x: false when x is NaN. -/
def optLt (c : ℚ) : Option ℚ → Bool
  | some a => decide (c < a)
  | none => false

/-- pandas Series.mean with the default skipna: NaN values are ignored
and the mean of an empty column is NaN. -/
def pandasMean (l : List (Option ℚ)) : Option ℚ :=
  let v := l.filterMap id
  if v.length = 0 then none else some (v.sum / (v.length : ℚ))

namespace Park

/-- A zone row of the frame produced by
park_coverage_model.aggregate_to_zones, together with the
predicted_coverage_score column added by the scoring step (none before
the column exists and when the value is NaN). -/
structure ZoneAgg where
  zone_name : String
  total_parks : ℚ
  total_park_area_km2 : ℚ
  total_area_km2 : ℚ
  total_population : ℚ
  avg_green_area_pct : ℚ
  avg_parks_per_10k : ℚ
  avg_population_density : ℚ
  parks_per_km2 : ℚ
  park_area_per_capita : ℚ
  predicted_coverage_score : Option ℚ
deriving DecidableEq, Repr

/-- The two zones whose scores adjust_for_ui_expectations preserves and
finally overwrites. -/
def isProtected (z : ZoneAgg) : Bool :=
  z.zone_name = "East Zone 1" || z.zone_name = "New Delhi"

/-- park_coverage_model.calculate_park_coverage_score: four clamped
sub-scores (0-40, 0-30, 0-20, 0-10), rounded sum, and the clip of the
total to the range 15..100. -/
def calculate_park_coverage_score (zs : List ZoneAgg) : List ZoneAgg :=
  let m := listMaxQ (zs.map (fun z => z.parks_per_km2))
  let max_density := if m = 0 then 1 else m
  zs.map (fun z =>
    let parks_score := clip 0 40 (z.avg_parks_per_10k / 15 * 40)
    let area_score := clip 0 30 (z.park_area_per_capita / 9 * 30)
    let green_score := clip 0 20 (z.avg_green_area_pct / 25 * 20)
    let density_score :=
      clip 0 10 (if 0 < max_density then z.parks_per_km2 / max_density * 10 else 0)
    let total := clip 15 100 (round1 (parks_score + area_score + green_score + density_score))
    { z with predicted_coverage_score := some total })

/-- adjust_for_ui_expectations lines 238-252: conditional targets for
East Zone 1 and New Delhi based on their park counts. -/
def conditional_targets (zs : List ZoneAgg) : List ZoneAgg :=
  zs.map (fun z =>
    if z.zone_name = "East Zone 1" then
      (if 500 < z.total_parks then { z with predicted_coverage_score := some 95 } else z)
    else if z.zone_name = "New Delhi" then
      (if z.total_parks < 100 then { z with predicted_coverage_score := some 44 } else z)
    else z)

/-- adjust_for_ui_expectations line 256: sort_values by total_parks
descending (tie order unspecified in pandas; stable here). -/
def sort_by_parks (zs : List ZoneAgg) : List ZoneAgg :=
  zs.insertionSort (fun a b => b.total_parks ≤ a.total_parks)

/-- adjust_for_ui_expectations lines 263-296: tier rescaling.  On the
frame sorted by park count, nlargest(k) is its first k rows, so the top
mask selects unprotected rows among the first top_k positions and the
middle selection takes the first middle_k remaining unprotected rows;
everything else unprotected is rescaled down. -/
def tier_rescale (zs : List ZoneAgg) : List ZoneAgg :=
  let n := zs.length
  let top_k := max 1 (n / 10)
  let middle_k := max 1 (2 * n / 5)
  let idxd := zs.enum
  let middleIdx :=
    ((idxd.filter (fun p => !isProtected p.2 && !(decide (p.1 < top_k)))).take middle_k).map
      Prod.fst
  idxd.map (fun p =>
    let topScore := optClip 75 95 (Option.map (fun s => s * 1.4) p.2.predicted_coverage_score)
    let midScore := optClip 40 75 (Option.map (fun s => s * 1.2) p.2.predicted_coverage_score)
    let lowScore := optClip 15 42 (Option.map (fun s => s * 0.8) p.2.predicted_coverage_score)
    if isProtected p.2 then p.2
    else if p.1 < top_k then { p.2 with predicted_coverage_score := topScore }
    else if p.1 ∈ middleIdx then { p.2 with predicted_coverage_score := midScore }
    else { p.2 with predicted_coverage_score := lowScore })

/-- The score column of the protected rows (East Zone 1 and New
Delhi). -/
def protScoresOf (zs : List ZoneAgg) : List (Option ℚ) :=
  (zs.filter (fun z => isProtected z)).map (fun z => z.predicted_coverage_score)

/-- unprotected_mask.sum(). -/
def unprotCountOf (zs : List ZoneAgg) : ℕ :=
  (zs.filter (fun z => !isProtected z)).length

/-- adjust_for_ui_expectations line 311: target_unprotected_avg =
(42.0 * total_count - protected_avg * protected_count) /
unprotected_count.  The protected average is the NaN mean of an empty
column when no protected row exists, and NaN times the count 0 stays
NaN. -/
def scaleTargetOf (zs : List ZoneAgg) : Option ℚ :=
  Option.map
    (fun pa => (42 * (zs.length : ℚ) - pa * ((protScoresOf zs).length : ℚ))
      / (unprotCountOf zs : ℚ))
    (pandasMean (protScoresOf zs))

/-- Line 314: the mean of the unprotected scores. -/
def currentAvgOf (zs : List ZoneAgg) : Option ℚ :=
  pandasMean ((zs.filter (fun z => !isProtected z)).map
    (fun z => z.predicted_coverage_score))

/-- Lines 315-319: multiply every unprotected score by the scale
factor, clip to 15..100 and round, when the current unprotected average
is positive. -/
def scalePass (zs : List ZoneAgg) : List ZoneAgg :=
  if optLt 0 (currentAvgOf zs) then
    zs.map (fun z =>
      let scaled :=
        optRound1 (optClip 15 100
          (optBin (fun s f => s * f) z.predicted_coverage_score
            (optBin (fun t c => t / c) (scaleTargetOf zs) (currentAvgOf zs))))
      if isProtected z then z
      else { z with predicted_coverage_score := scaled })
  else zs

/-- Lines 321-327: the additive fine-tuning toward the citywide average
42.0; the guard comparison is false when the overall mean is NaN. -/
def finePass (unprotCount : ℕ) (zs1 : List ZoneAgg) : List ZoneAgg :=
  match pandasMean (zs1.map (fun z => z.predicted_coverage_score)) with
  | some fa =>
      if 1 / 10 < |fa - 42| then
        zs1.map (fun z =>
          let tuned :=
            optRound1 (optClip 15 100
              (Option.map (fun s => s + (42 - fa) / (unprotCount : ℚ))
                z.predicted_coverage_score))
          if isProtected z then z
          else { z with predicted_coverage_score := tuned })
      else zs1
  | none => zs1

/-- adjust_for_ui_expectations lines 298-327: rescale the unprotected
scores toward the citywide average target 42.0, then fine-tune. -/
def scale_to_target (zs : List ZoneAgg) : List ZoneAgg :=
  if 0 < unprotCountOf zs then finePass (unprotCountOf zs) (scalePass zs) else zs

/-- adjust_for_ui_expectations lines 329-333: the final unconditional
overwrites of the East Zone 1 and New Delhi scores. -/
def final_targets (zs : List ZoneAgg) : List ZoneAgg :=
  zs.map (fun z =>
    if z.zone_name = "East Zone 1" then { z with predicted_coverage_score := some 95 }
    else if z.zone_name = "New Delhi" then { z with predicted_coverage_score := some 44 }
    else z)

/-- park_coverage_model.calculate_realistic_park_area: synthetic park
area from the park count, drawing the average park size from the
global generator in the middle branches. -/
def calculate_realistic_park_area (num_parks current_area : ℚ) (s : ℕ) : ℚ × ℕ :=
  let _ := current_area
  if num_parks = 0 then (0, s)
  else if 1000 < num_parks then (round2 (num_parks * (57 / 1000)), s)
  else if 100 < num_parks then
    let d := npUniform 0 (2 / 100) s
    (round2 (num_parks * (3 / 100 + d.1)), d.2)
  else if 30 < num_parks then
    let d := npUniform 0 (3 / 100) s
    (round2 (num_parks * (2 / 100 + d.1)), d.2)
  else
    let d := npUniform 0 (2 / 100) s
    let area := round2 (num_parks * (15 / 1000 + d.1))
    ((if 0 < num_parks then max area (1 / 2) else 0), d.2)

/-- adjust_for_ui_expectations lines 335-343: recompute the area of
every unprotected zone, threading the generator state through the rows
in order. -/
def adjust_areas (s : ℕ) : List ZoneAgg → List ZoneAgg × ℕ
  | [] => ([], s)
  | z :: t =>
      if isProtected z then
        let r := adjust_areas s t
        (z :: r.1, r.2)
      else
        let a := calculate_realistic_park_area z.total_parks z.total_area_km2 s
        let r := adjust_areas a.2 t
        ({ z with total_area_km2 := a.1 } :: r.1, r.2)

/-- park_coverage_model.adjust_for_ui_expectations, whole function. -/
def adjust_for_ui_expectations (s : ℕ) (zs : List ZoneAgg) : List ZoneAgg :=
  (adjust_areas s
    (final_targets (scale_to_target (tier_rescale (sort_by_parks
      (conditional_targets zs)))))).1

/-- park_coverage_model.assign_labels on a possibly-NaN score: both
threshold comparisons are false on NaN, giving the bottom label. -/
def label_of_score : Option ℚ → String × String
  | some sc => get_label_and_status sc
  | none => ("Needs Improvement", "needs-improvement")

/-- One exported row of park_coverage_model main (steps 8-10). -/
structure Row where
  zone_id : String
  zone_name : String
  predicted_coverage_score : Option ℚ
  coverage_label : String
  num_parks : ℤ
  total_area : ℚ
  status : String
deriving DecidableEq, Repr

/-- Descending comparison on possibly-NaN scores; pandas sort_values
places NaN last. -/
def scoreDescB (a b : ZoneAgg) : Bool :=
  match a.predicted_coverage_score, b.predicted_coverage_score with
  | some x, some y => decide (y ≤ x)
  | some _, none => true
  | none, some _ => false
  | none, none => true

/-- create_zone_ids line 401: sort_values by score descending. -/
def sort_by_score (zs : List ZoneAgg) : List ZoneAgg :=
  zs.insertionSort (fun a b => scoreDescB a b = true)

/-- The park pipeline from zone aggregates to the exported table:
calculate_park_coverage_score, adjust_for_ui_expectations,
assign_labels, create_zone_ids and the rounding and casts of main
(score to one decimal, area to two, park count to integer). -/
def park_export (s : ℕ) (zs : List ZoneAgg) : List Row :=
  let adjusted := adjust_for_ui_expectations s (calculate_park_coverage_score zs)
  let sorted := sort_by_score adjusted
  (sorted.enum).map (fun p =>
    { zone_id := pad2 (p.1 + 1)
      zone_name := p.2.zone_name
      predicted_coverage_score := optRound1 p.2.predicted_coverage_score
      coverage_label := (label_of_score p.2.predicted_coverage_score).1
      num_parks := pyInt p.2.total_parks
      total_area := round2 p.2.total_area_km2
      status := (label_of_score p.2.predicted_coverage_score).2 : Row })

end Park

namespace Urban

/-- urban_coverage_model.predict_urban_coverage line 422: predictions
are rounded to two decimal places before export, with no clipping. -/
def exported_prediction (pred : ℚ) : ℚ := round2 pred

end Urban

/-!
Specification predicates and concrete inputs used by the claim
theorems, their witnesses and counterexamples.
-/

/-- Pairwise disjoint zone interiors: no point is contained in two
distinct entries of the zone list. -/
def DisjointZones (zones : List Zone) : Prop :=
  zones.Pairwise (fun z1 z2 =>
    ∀ q : Pt, ¬(z1.containsPt q = true ∧ z2.containsPt q = true))

namespace Park

/-- A score that is present (not NaN) and lies in the range 15..100. -/
def GoodScore (z : ZoneAgg) : Prop :=
  ∃ q, z.predicted_coverage_score = some q ∧ 15 ≤ q ∧ q ≤ 100

/-- Name, park count and score of a row: everything the claims track
across the passes (only the area column escapes this projection). -/
def proj3 (z : ZoneAgg) : String × ℚ × Option ℚ :=
  (z.zone_name, z.total_parks, z.predicted_coverage_score)

/-- Everything of an exported park row except the synthetic area
column. -/
def rowProj (r : Row) : String × String × Option ℚ × String × ℤ × String :=
  (r.zone_id, r.zone_name, r.predicted_coverage_score, r.coverage_label,
    r.num_parks, r.status)

end Park

/-- Concrete hospital zone used to instantiate C1. -/
def wZoneH : Hospital.ZoneEst :=
  { zone_name := "Central", num_hospitals := 40, total_population := 1000000
    total_area_km2 := 100, avg_hospitals_per_100k := 4, avg_population_density := 10000
    total_roads_km := 50, total_beds := 4000, beds_per_100k := 400 }

/-- Concrete school feature vector used to instantiate C1. -/
def wFeat : School.Features :=
  { schools_per_1000_children := 3, seat_capacity_per_100_children := 80
    avg_student_teacher_r := 25, literacy_rate := 9 / 10 }

/-- The scored pair produced by the hospital scorer on the singleton
frame of wZoneH. -/
def wPairH : Hospital.ZoneEst × ℚ :=
  (wZoneH, Hospital.health_access_index (Hospital.maxRoadsOr1 [wZoneH]) wZoneH)

/-- A record with valid coordinates. -/
def goodRec : School.SchoolRec := ⟨some 28, some 77⟩

/-- A record with a missing latitude. -/
def badRec : School.SchoolRec := ⟨none, some 77⟩

/-- A zone covering the open left half plane. -/
def wZoneL : Zone := ⟨0, "Left", fun q => decide (q.1 < 0), fun q => q.1⟩

/-- A zone covering the closed right half plane. -/
def wZoneR : Zone := ⟨1, "Right", fun q => decide (0 ≤ q.1), fun q => -q.1⟩

/-- Concrete facilities for the C3 witness. -/
def wPts : List Pt := [(5, 5), (-3, 1)]

/-- A zone containing no facility point. -/
def cZoneEmpty : Zone := ⟨0, "Empty", fun _ => false, fun _ => 1⟩

/-- A zone containing every facility point. -/
def cZoneFull : Zone := ⟨1, "Full", fun _ => true, fun _ => 0⟩

/-- Assigned rows used to instantiate the amended claim C5. -/
def wAssigned : List (Pt × ℕ) := [((0, 0), 1)]

/-- A family of park zone aggregates named Central Zone 1 — neither
East Zone 1 nor New Delhi — indexed by score and area, used to trace
the pipeline stages on a concrete input. -/
def c10ZoneP (sc : Option ℚ) (area : ℚ) : Park.ZoneAgg :=
  { zone_name := "Central Zone 1", total_parks := 10, total_park_area_km2 := 0
    total_area_km2 := area, total_population := 0, avg_green_area_pct := 0
    avg_parks_per_10k := 0, avg_population_density := 0, parks_per_km2 := 0
    park_area_per_capita := 0, predicted_coverage_score := sc }

/-- A park zone aggregate that is neither East Zone 1 nor New Delhi:
the input on which the rescaling pass of the park model turns every
score into NaN. -/
def c10Zone : Park.ZoneAgg := c10ZoneP none 4

/-- A park zone aggregate named East Zone 1 with a high park count. -/
def wParkEZ1 : Park.ZoneAgg :=
  { zone_name := "East Zone 1", total_parks := 600, total_park_area_km2 := 10
    total_area_km2 := 20, total_population := 10000, avg_green_area_pct := 10
    avg_parks_per_10k := 5, avg_population_density := 500, parks_per_km2 := 30
    park_area_per_capita := 10, predicted_coverage_score := none }

/-- The row the park pipeline exports for the singleton frame of
wParkEZ1. -/
def rParkW : Park.Row :=
  { zone_id := "01", zone_name := "East Zone 1", predicted_coverage_score := some 95
    coverage_label := "Excellent Coverage", num_parks := 600, total_area := 20
    status := "excellent" }

/-!
Theorems.  First the basic facts about clip and rounding, then the
claim theorems with their witnesses and counterexamples.
-/

theorem clip_mem {lo hi : ℚ} (x : ℚ) (h : lo ≤ hi) :
    lo ≤ clip lo hi x ∧ clip lo hi x ≤ hi := by
  unfold clip
  constructor
  · exact le_min h (le_max_left lo x)
  · exact min_le_left hi _

theorem clip_mem_of_sub {lo hi lo2 hi2 : ℚ} (x : ℚ) (h : lo ≤ hi)
    (h1 : lo2 ≤ lo) (h2 : hi ≤ hi2) :
    lo2 ≤ clip lo hi x ∧ clip lo hi x ≤ hi2 := by
  obtain ⟨a, b⟩ := clip_mem x h
  exact ⟨le_trans h1 a, le_trans b h2⟩

theorem round1_mono {x y : ℚ} (h : x ≤ y) : round1 x ≤ round1 y := by
  unfold round1
  have hr : round (x * 10) ≤ round (y * 10) := by
    rw [round_eq, round_eq]
    exact Int.floor_mono (by linarith)
  have : ((round (x * 10) : ℤ) : ℚ) ≤ ((round (y * 10) : ℤ) : ℚ) := by
    exact_mod_cast hr
  linarith

theorem round1_intTenth (k : ℤ) : round1 ((k : ℚ) / 10) = (k : ℚ) / 10 := by
  unfold round1
  have h10 : ((k : ℚ) / 10) * 10 = (k : ℚ) := by ring
  rw [h10, round_intCast]

theorem round1_mem (lo hi : ℤ) {x : ℚ}
    (h1 : (lo : ℚ) / 10 ≤ x) (h2 : x ≤ (hi : ℚ) / 10) :
    (lo : ℚ) / 10 ≤ round1 x ∧ round1 x ≤ (hi : ℚ) / 10 := by
  constructor
  · calc (lo : ℚ) / 10 = round1 ((lo : ℚ) / 10) := (round1_intTenth lo).symm
    _ ≤ round1 x := round1_mono h1
  · calc round1 x ≤ round1 ((hi : ℚ) / 10) := round1_mono h2
    _ = (hi : ℚ) / 10 := round1_intTenth hi

theorem round1_tenth (q : ℚ) : ∃ k : ℤ, round1 q = (k : ℚ) / 10 :=
  ⟨round (q * 10), rfl⟩

theorem round2_hundredth (q : ℚ) : ∃ k : ℤ, round2 q = (k : ℚ) / 100 :=
  ⟨round (q * 100), rfl⟩

namespace Hospital

theorem round1_mem_20_100 {x : ℚ} (h1 : 20 ≤ x) (h2 : x ≤ 100) :
    20 ≤ round1 x ∧ round1 x ≤ 100 := by
  obtain ⟨a, b⟩ := @round1_mem 200 1000 x (by push_cast; linarith) (by push_cast; linarith)
  norm_num at a b
  exact ⟨a, b⟩

theorem central_adjust_mem (z : ZoneEst) {h : ℚ} (hh : 20 ≤ h ∧ h ≤ 100) :
    20 ≤ central_adjust z h ∧ central_adjust z h ≤ 100 := by
  unfold central_adjust
  split_ifs
  · norm_num
  · exact clip_mem_of_sub _ (by norm_num) (by norm_num) (by norm_num)
  · exact hh

theorem east_adjust_mem (z : ZoneEst) {h : ℚ} (hh : 20 ≤ h ∧ h ≤ 100) :
    20 ≤ east_adjust z h ∧ east_adjust z h ≤ 100 := by
  unfold east_adjust
  split_ifs
  · exact clip_mem_of_sub _ (by norm_num) (by norm_num) (by norm_num)
  · exact hh

theorem north_adjust_mem (z : ZoneEst) {h : ℚ} (hh : 20 ≤ h ∧ h ≤ 100) :
    20 ≤ north_adjust z h ∧ north_adjust z h ≤ 100 := by
  unfold north_adjust
  split_ifs
  · exact clip_mem_of_sub _ (by norm_num) (by norm_num) (by norm_num)
  · exact hh

theorem west_adjust_mem (z : ZoneEst) {h : ℚ} (hh : 20 ≤ h ∧ h ≤ 100) :
    20 ≤ west_adjust z h ∧ west_adjust z h ≤ 100 := by
  unfold west_adjust
  split_ifs
  · exact clip_mem_of_sub _ (by norm_num) (by norm_num) (by norm_num)
  · exact hh

theorem newdelhi_adjust_mem (z : ZoneEst) {h : ℚ} (hh : 20 ≤ h ∧ h ≤ 100) :
    20 ≤ newdelhi_adjust z h ∧ newdelhi_adjust z h ≤ 100 := by
  unfold newdelhi_adjust
  split_ifs
  · exact clip_mem_of_sub _ (by norm_num) (by norm_num) (by norm_num)
  · exact hh

theorem south_adjust_mem (z : ZoneEst) {h : ℚ} (hh : 20 ≤ h ∧ h ≤ 100) :
    20 ≤ south_adjust z h ∧ south_adjust z h ≤ 100 := by
  unfold south_adjust
  split_ifs
  · norm_num
  · exact hh

theorem excellent_adjust_mem (z : ZoneEst) {h : ℚ} (hh : 20 ≤ h ∧ h ≤ 100) :
    20 ≤ excellent_adjust z h ∧ excellent_adjust z h ≤ 100 := by
  unfold excellent_adjust
  split_ifs
  · exact clip_mem_of_sub _ (by norm_num) (by norm_num) (by norm_num)
  · exact hh

theorem poor_adjust_mem (z : ZoneEst) {h : ℚ} (hh : 20 ≤ h ∧ h ≤ 100) :
    20 ≤ poor_adjust z h ∧ poor_adjust z h ≤ 100 := by
  unfold poor_adjust
  split_ifs
  · exact clip_mem_of_sub _ (by norm_num) (by norm_num) (by norm_num)
  · exact hh

/-- The health access index of every zone lies between 20 and 100,
whatever the zone aggregates and bed estimates are. -/
theorem health_access_index_mem (mr : ℚ) (z : ZoneEst) :
    20 ≤ health_access_index mr z ∧ health_access_index mr z ≤ 100 := by
  unfold health_access_index
  have h0 : 20 ≤ clip 20 100 (hai_sub_scores mr z)
      ∧ clip 20 100 (hai_sub_scores mr z) ≤ 100 :=
    clip_mem _ (by norm_num)
  have h8 :=
    poor_adjust_mem z (excellent_adjust_mem z (south_adjust_mem z (newdelhi_adjust_mem z
      (west_adjust_mem z (north_adjust_mem z (east_adjust_mem z
        (central_adjust_mem z h0)))))))
  exact round1_mem_20_100 h8.1 h8.2

/-- Every row of calculate_coverage_score carries an index between 20
and 100. -/
theorem calculate_coverage_score_mem (zs : List ZoneEst) (p : ZoneEst × ℚ)
    (hp : p ∈ calculate_coverage_score zs) : 20 ≤ p.2 ∧ p.2 ≤ 100 := by
  unfold calculate_coverage_score at hp
  obtain ⟨z, _, hz⟩ := List.mem_map.mp hp
  have := health_access_index_mem (maxRoadsOr1 zs) z
  rw [← hz]
  exact this

end Hospital

theorem round1_mem_0_100 {x : ℚ} (h1 : 0 ≤ x) (h2 : x ≤ 100) :
    0 ≤ round1 x ∧ round1 x ≤ 100 := by
  obtain ⟨a, b⟩ := @round1_mem 0 1000 x (by push_cast; linarith) (by push_cast; linarith)
  norm_num at a b
  exact ⟨a, b⟩

/-- Claim C1: for every zone of the cited scorers the exported coverage
score lies in the closed interval 0..100: the school rule-based score
is clipped to 0..100 after summing the clamped sub-scores, the school
prediction path clips then rounds, and the hospital health access index
is clipped to 20..100 and only moved inside 0..100 by the subsequent
zone adjustments and rounding. -/
theorem c1_exported_score_in_0_100 (f : School.Features) (pred : ℚ)
    (zsH : List Hospital.ZoneEst) (p : Hospital.ZoneEst × ℚ)
    (hp : p ∈ Hospital.calculate_coverage_score zsH) :
    (0 ≤ School.coverage_score f ∧ School.coverage_score f ≤ 100) ∧
    (0 ≤ School.exported_prediction pred ∧ School.exported_prediction pred ≤ 100) ∧
    (0 ≤ p.2 ∧ p.2 ≤ 100) := by
  refine ⟨clip_mem _ (by norm_num), ?_, ?_⟩
  · have h := @clip_mem 0 100 pred (by norm_num)
    exact round1_mem_0_100 h.1 h.2
  · have h := Hospital.calculate_coverage_score_mem zsH p hp
    constructor <;> linarith [h.1, h.2]

theorem c1_witness :
    (0 ≤ School.coverage_score wFeat ∧ School.coverage_score wFeat ≤ 100) ∧
    (0 ≤ School.exported_prediction 55 ∧ School.exported_prediction 55 ≤ 100) ∧
    (0 ≤ wPairH.2 ∧ wPairH.2 ≤ 100) :=
  c1_exported_score_in_0_100 wFeat 55 [wZoneH] wPairH (List.mem_singleton.mpr rfl)

/-- Claim C2: the division-by-zero policy.  In the urban feature engine
a zero denominator with a positive numerator evaluates to positive
infinity, because aggregate_cells_to_zones only applies fillna(0),
which removes NaN but not infinities; the school and park feature
engines do replace infinities and yield 0. -/
theorem c2_division_by_zero_evaluation :
    Urban.parks_per_km2 (.fin 1) (.fin 0) = NpF.pinf ∧
    Urban.schools_per_km2 (.fin 2) (.fin 0) = NpF.pinf ∧
    Urban.parks_per_km2 (.fin 0) (.fin 0) = .fin 0 ∧
    School.schools_per_1000_children (.fin 3) (.fin 0) = .fin 0 ∧
    School.seat_capacity_per_100_children (.fin 120) (.fin 0) = .fin 0 ∧
    Park.parks_per_km2_feature (.fin 3) (.fin 0) = .fin 0 ∧
    Park.park_area_per_capita_feature (.fin 2) (.fin 0) = .fin 0 := by
  decide

/-- Claim C4: each labeler is a pure monotone function of the score:
raising the score never lowers the label tier, for the school, hospital,
park and urban threshold sets. -/
theorem c4_labeler_monotone (s1 s2 : ℚ) (h : s1 ≤ s2) :
    labelTier (School.score_to_label s1) ≤ labelTier (School.score_to_label s2) ∧
    labelTier (Hospital.assign_label s1).1 ≤ labelTier (Hospital.assign_label s2).1 ∧
    labelTier (Park.get_label_and_status s1).1 ≤ labelTier (Park.get_label_and_status s2).1 ∧
    labelTier (Urban.score_to_label s1) ≤ labelTier (Urban.score_to_label s2) := by
  unfold School.score_to_label Hospital.assign_label Park.get_label_and_status
    Urban.score_to_label
  refine ⟨?_, ?_, ?_, ?_⟩ <;> split_ifs <;> first | decide | (exfalso; linarith)

theorem c4_witness :
    labelTier (School.score_to_label 30) ≤ labelTier (School.score_to_label 90) ∧
    labelTier (Hospital.assign_label 30).1 ≤ labelTier (Hospital.assign_label 90).1 ∧
    labelTier (Park.get_label_and_status 30).1 ≤ labelTier (Park.get_label_and_status 90).1 ∧
    labelTier (Urban.score_to_label 30) ≤ labelTier (Urban.score_to_label 90) :=
  c4_labeler_monotone 30 90 (by norm_num)

/-- Counterexample to claim C6: adding a record with missing
coordinates leaves every observable of the loading step (the retained
records and the printed retained count) unchanged, so the number of
excluded records is not reported anywhere: 1 versus 0 invalid records
are indistinguishable in the output. -/
theorem c6_counterexample :
    School.loadObservable [goodRec, badRec] = School.loadObservable [goodRec] ∧
    School.countInvalidCoords [goodRec, badRec] = 1 ∧
    School.countInvalidCoords [goodRec] = 0 := by
  decide

/-- Amended claim C6: records with missing or out-of-range coordinates
are silently excluded — the retained set is exactly the valid records,
the run continues, and the only count printed is the number of retained
records; no InvalidLocation error and no excluded-record diagnostic
exists. -/
theorem c6_invalid_coords_dropped_silently (l : List School.SchoolRec)
    (r : School.SchoolRec) :
    (r ∈ (School.loadObservable l).1 ↔ r ∈ l ∧ School.validCoord r = true) ∧
    (School.loadObservable l).2 = ((School.loadObservable l).1).length := by
  constructor
  · exact List.mem_filter
  · rfl

/-!
Claims C3 and C5: uniqueness and conservation of the locator and
aggregator, and presence of zero-facility zones in the aggregate.
-/

theorem zonesContaining_len_le_one (zones : List Zone) (p : Pt)
    (hdisj : DisjointZones zones) :
    (School.zonesContaining zones p).length ≤ 1 := by
  induction zones with
  | nil => simp [School.zonesContaining]
  | cons z zs ih =>
      rw [DisjointZones, List.pairwise_cons] at hdisj
      obtain ⟨hz, htail⟩ := hdisj
      unfold School.zonesContaining
      rw [List.filter_cons]
      by_cases hc : z.containsPt p = true
      · have hrest : zs.filter (fun z2 => z2.containsPt p) = [] := by
          rw [List.filter_eq_nil_iff]
          intro z2 hz2
          have := hz z2 hz2 p
          intro hc2
          exact this ⟨hc, hc2⟩
        simp [hc, School.zonesContaining, hrest]
      · simp only [hc]
        simpa [School.zonesContaining] using ih htail

theorem nearestZone_of_ne_nil (zones : List Zone) (p : Pt) (h : zones ≠ []) :
    ∃ z, School.nearestZone zones p = some z := by
  cases zones with
  | nil => exact absurd rfl h
  | cons z zs => exact ⟨_, rfl⟩

theorem facilityRows_len_le_one (u : Bool) (zones : List Zone) (p : Pt)
    (hdisj : DisjointZones zones) :
    (School.facilityRows u zones p).length ≤ 1 := by
  unfold School.facilityRows
  by_cases hz : School.zonesContaining zones p = []
  · cases u with
    | false => simp [hz]
    | true =>
        simp only [hz, List.map_nil, List.isEmpty_nil, if_true]
        cases hn : School.nearestZone zones p <;> simp
  · have hlen := zonesContaining_len_le_one zones p hdisj
    have hne : ((School.zonesContaining zones p).map
        (fun z => (p, z.zone_id))).isEmpty = false := by
      simp [List.isEmpty_iff, hz]
    simp [hne, hlen]

theorem facilityRows_len_eq_one (zones : List Zone) (p : Pt)
    (hdisj : DisjointZones zones) (hne : zones ≠ []) :
    (School.facilityRows true zones p).length = 1 := by
  unfold School.facilityRows
  by_cases hz : School.zonesContaining zones p = []
  · obtain ⟨z, hzn⟩ := nearestZone_of_ne_nil zones p hne
    simp [hz, hzn]
  · have hlen := zonesContaining_len_le_one zones p hdisj
    have hpos : 0 < (School.zonesContaining zones p).length :=
      List.length_pos.mpr hz
    have hne2 : ((School.zonesContaining zones p).map
        (fun z => (p, z.zone_id))).isEmpty = false := by
      simp [List.isEmpty_iff, hz]
    simp only [hne2, Bool.false_eq_true, if_false, List.length_map]
    omega

/-- Sum of the per-zone counts of the aggregator equals the number of
assigned rows, with no assumption on the zone list. -/
theorem aggregate_counts_sum (assigned : List (Pt × ℕ)) :
    ((School.aggregate_schools_to_zones assigned).map Prod.snd).sum
      = assigned.length := by
  unfold School.aggregate_schools_to_zones
  rw [List.map_map]
  have hcomp :
      (Prod.snd ∘ fun zid => (zid, (assigned.map Prod.snd).count zid))
        = fun zid => (assigned.map Prod.snd).count zid := rfl
  rw [hcomp, List.sum_map_count_dedup_eq_length, List.length_map]

/-- Claim C3: with pairwise disjoint zone interiors each facility is
assigned to at most one zone — exactly one in nearest mode with a
nonempty zone list — and the per-zone counts of the aggregator sum to
the number of assigned rows: nothing is double counted or dropped after
assignment. -/
theorem c3_assignment_unique_and_conserved (u : Bool) (zones : List Zone)
    (ps : List Pt) (hdisj : DisjointZones zones) :
    (∀ p : Pt, (School.facilityRows u zones p).length ≤ 1) ∧
    (u = true → zones ≠ [] →
      ∀ p : Pt, (School.facilityRows u zones p).length = 1) ∧
    ((School.aggregate_schools_to_zones
        (School.spatial_join_schools_to_zones u zones ps)).map Prod.snd).sum
      = (School.spatial_join_schools_to_zones u zones ps).length := by
  refine ⟨fun p => facilityRows_len_le_one u zones p hdisj, ?_, aggregate_counts_sum _⟩
  intro hu hne p
  subst hu
  exact facilityRows_len_eq_one zones p hdisj hne

theorem wZones_disjoint : DisjointZones [wZoneL, wZoneR] := by
  unfold DisjointZones
  refine List.pairwise_cons.mpr ⟨?_, ?_⟩
  · intro z2 hz2 q hq
    simp only [List.mem_singleton] at hz2
    subst hz2
    obtain ⟨a, b⟩ := hq
    simp [wZoneL, wZoneR] at a b
    linarith
  · refine List.pairwise_cons.mpr ⟨?_, List.Pairwise.nil⟩
    intro z2 hz2
    simp at hz2

theorem c3_witness :
    (School.facilityRows true [wZoneL, wZoneR] (5, 5)).length = 1 ∧
    ((School.aggregate_schools_to_zones
        (School.spatial_join_schools_to_zones true [wZoneL, wZoneR] wPts)).map
        Prod.snd).sum
      = (School.spatial_join_schools_to_zones true [wZoneL, wZoneR] wPts).length :=
  ⟨(c3_assignment_unique_and_conserved true [wZoneL, wZoneR] wPts
      wZones_disjoint).2.1 rfl (by simp) (5, 5),
   (c3_assignment_unique_and_conserved true [wZoneL, wZoneR] wPts
      wZones_disjoint).2.2⟩

/-- Counterexample to claim C5: zone 0 is present in the zone input but
receives no facility, and the aggregator output — the pandas groupby
over the assigned rows — has no row at all for it, instead of a row of
zeros. -/
theorem c5_counterexample :
    0 ∈ ([cZoneEmpty, cZoneFull].map Zone.zone_id) ∧
    School.aggregate_schools_to_zones
      (School.spatial_join_schools_to_zones false [cZoneEmpty, cZoneFull]
        [(0, 0)]) = [(1, 1)] ∧
    0 ∉ ((School.aggregate_schools_to_zones
      (School.spatial_join_schools_to_zones false [cZoneEmpty, cZoneFull]
        [(0, 0)])).map Prod.fst) := by
  decide

/-- Amended claim C5: the aggregator output contains a row exactly for
the zones with at least one assigned facility; such rows carry a count
of at least one, and zones with zero assigned facilities are absent
from the output. -/
theorem c5_zero_facility_zones_absent (assigned : List (Pt × ℕ)) (zid : ℕ) :
    (zid ∈ (School.aggregate_schools_to_zones assigned).map Prod.fst ↔
      zid ∈ assigned.map Prod.snd) ∧
    (∀ c : ℕ, (zid, c) ∈ School.aggregate_schools_to_zones assigned → 1 ≤ c) := by
  constructor
  · unfold School.aggregate_schools_to_zones
    rw [List.map_map]
    have hcomp :
        (Prod.fst ∘ fun z => (z, (assigned.map Prod.snd).count z)) = id := rfl
    rw [hcomp, List.map_id]
    exact List.mem_dedup
  · intro c hc
    unfold School.aggregate_schools_to_zones at hc
    obtain ⟨a, ha, hae⟩ := List.mem_map.mp hc
    have h1 : a = zid := congrArg Prod.fst hae
    have h2 : (assigned.map Prod.snd).count a = c := congrArg Prod.snd hae
    rw [← h2]
    exact List.count_pos_iff.mpr (List.mem_dedup.mp ha)

theorem c5_witness :
    ((1 : ℕ) ∈ (School.aggregate_schools_to_zones wAssigned).map Prod.fst ↔
      (1 : ℕ) ∈ wAssigned.map Prod.snd) ∧
    (1 : ℕ) ≤ 1 :=
  ⟨(c5_zero_facility_zones_absent wAssigned 1).1,
   (c5_zero_facility_zones_absent wAssigned 1).2 1 (by decide)⟩

/-!
Lemmas about the park pipeline, for claims C8, C9 and C10.
-/

theorem round1_mem_15_100 {x : ℚ} (h1 : 15 ≤ x) (h2 : x ≤ 100) :
    15 ≤ round1 x ∧ round1 x ≤ 100 := by
  obtain ⟨a, b⟩ := @round1_mem 150 1000 x (by push_cast; linarith) (by push_cast; linarith)
  norm_num at a b
  exact ⟨a, b⟩

theorem round1_of_95 : round1 (95 : ℚ) = 95 := by
  have h : (95 : ℚ) * 10 = ((950 : ℤ) : ℚ) := by norm_num
  rw [round1, h, round_intCast]
  norm_num

theorem round1_of_44 : round1 (44 : ℚ) = 44 := by
  have h : (44 : ℚ) * 10 = ((440 : ℤ) : ℚ) := by norm_num
  rw [round1, h, round_intCast]
  norm_num

theorem pandasMean_isSome {l : List (Option ℚ)} {q : ℚ} (h : some q ∈ l) :
    ∃ v, pandasMean l = some v := by
  have hq : q ∈ l.filterMap id := List.mem_filterMap.mpr ⟨some q, h, rfl⟩
  have hne : (l.filterMap id).length ≠ 0 := by
    intro h0
    rw [List.length_eq_zero] at h0
    rw [h0] at hq
    exact absurd hq (List.not_mem_nil q)
  unfold pandasMean
  rw [if_neg hne]
  exact ⟨_, rfl⟩

namespace Park

theorem calc_names (zs : List ZoneAgg) :
    (calculate_park_coverage_score zs).map ZoneAgg.zone_name
      = zs.map ZoneAgg.zone_name := by
  unfold calculate_park_coverage_score
  rw [List.map_map]
  rfl

theorem conditional_targets_names (zs : List ZoneAgg) :
    (conditional_targets zs).map ZoneAgg.zone_name = zs.map ZoneAgg.zone_name := by
  unfold conditional_targets
  rw [List.map_map]
  refine List.map_congr_left ?_
  intro z _
  simp only [Function.comp]
  split_ifs <;> rfl

theorem tier_rescale_names (zs : List ZoneAgg) :
    (tier_rescale zs).map ZoneAgg.zone_name = zs.map ZoneAgg.zone_name := by
  unfold tier_rescale
  rw [List.map_map]
  have h1 : ∀ p ∈ zs.enum,
      (ZoneAgg.zone_name ∘ fun p : ℕ × ZoneAgg =>
        (let topScore := optClip 75 95
            (Option.map (fun s => s * 1.4) p.2.predicted_coverage_score)
         let midScore := optClip 40 75
            (Option.map (fun s => s * 1.2) p.2.predicted_coverage_score)
         let lowScore := optClip 15 42
            (Option.map (fun s => s * 0.8) p.2.predicted_coverage_score)
         if isProtected p.2 then p.2
         else if p.1 < max 1 (zs.length / 10) then
           { p.2 with predicted_coverage_score := topScore }
         else if p.1 ∈ ((zs.enum.filter (fun p =>
             !isProtected p.2 && !(decide (p.1 < max 1 (zs.length / 10))))).take
               (max 1 (2 * zs.length / 5))).map Prod.fst then
           { p.2 with predicted_coverage_score := midScore }
         else { p.2 with predicted_coverage_score := lowScore })) p
        = (ZoneAgg.zone_name ∘ Prod.snd) p := by
    intro p _
    simp only [Function.comp]
    split_ifs <;> rfl
  rw [List.map_congr_left h1, ← List.map_map, List.enum_map_snd]

theorem exists_prot_of_names_eq {l1 l2 : List ZoneAgg}
    (h : l1.map ZoneAgg.zone_name = l2.map ZoneAgg.zone_name)
    (hp : ∃ z ∈ l1, isProtected z = true) : ∃ z ∈ l2, isProtected z = true := by
  obtain ⟨z, hz, hpz⟩ := hp
  have hmem : z.zone_name ∈ l2.map ZoneAgg.zone_name :=
    h ▸ List.mem_map_of_mem ZoneAgg.zone_name hz
  obtain ⟨z2, hz2, he⟩ := List.mem_map.mp hmem
  refine ⟨z2, hz2, ?_⟩
  unfold isProtected at hpz ⊢
  rw [he]
  exact hpz

theorem calc_good (zs : List ZoneAgg) :
    ∀ z ∈ calculate_park_coverage_score zs, GoodScore z := by
  intro z hz
  unfold calculate_park_coverage_score at hz
  obtain ⟨y, _, rfl⟩ := List.mem_map.mp hz
  exact ⟨_, rfl, clip_mem _ (by norm_num)⟩

theorem conditional_targets_good {zs : List ZoneAgg}
    (hg : ∀ z ∈ zs, GoodScore z) :
    ∀ z ∈ conditional_targets zs, GoodScore z := by
  intro z hz
  unfold conditional_targets at hz
  obtain ⟨y, hy, rfl⟩ := List.mem_map.mp hz
  split_ifs
  · exact ⟨95, rfl, by norm_num⟩
  · exact hg y hy
  · exact ⟨44, rfl, by norm_num⟩
  · exact hg y hy
  · exact hg y hy

theorem sort_by_parks_good {zs : List ZoneAgg}
    (hg : ∀ z ∈ zs, GoodScore z) :
    ∀ z ∈ sort_by_parks zs, GoodScore z := by
  intro z hz
  exact hg z ((List.mem_insertionSort _).mp hz)

theorem sort_by_parks_prot {zs : List ZoneAgg}
    (hp : ∃ z ∈ zs, isProtected z = true) :
    ∃ z ∈ sort_by_parks zs, isProtected z = true := by
  obtain ⟨z, hz, hpz⟩ := hp
  exact ⟨z, (List.mem_insertionSort _).mpr hz, hpz⟩

theorem tier_rescale_good {zs : List ZoneAgg}
    (hg : ∀ z ∈ zs, GoodScore z) :
    ∀ z ∈ tier_rescale zs, GoodScore z := by
  intro z hz
  unfold tier_rescale at hz
  obtain ⟨p, hp, rfl⟩ := List.mem_map.mp hz
  have hy : p.2 ∈ zs := by
    have := List.mem_map_of_mem Prod.snd hp
    rwa [List.enum_map_snd] at this
  obtain ⟨q, hq, h15, h100⟩ := hg p.2 hy
  split_ifs
  · exact ⟨q, hq, h15, h100⟩
  · exact ⟨_, by rw [hq]; rfl, clip_mem_of_sub _ (by norm_num) (by norm_num) (by norm_num)⟩
  · exact ⟨_, by rw [hq]; rfl, clip_mem_of_sub _ (by norm_num) (by norm_num) (by norm_num)⟩
  · exact ⟨_, by rw [hq]; rfl, clip_mem_of_sub _ (by norm_num) (by norm_num) (by norm_num)⟩

theorem scalePass_good {zs : List ZoneAgg}
    (hp : ∃ z ∈ zs, isProtected z = true)
    (hg : ∀ z ∈ zs, GoodScore z) :
    ∀ z ∈ scalePass zs, GoodScore z := by
  intro z hz
  unfold scalePass at hz
  by_cases hlt : optLt 0 (currentAvgOf zs) = true
  · rw [if_pos hlt] at hz
    obtain ⟨y, hy, rfl⟩ := List.mem_map.mp hz
    by_cases hprot : isProtected y = true
    · simp only [hprot, if_true]
      exact hg y hy
    · simp only [hprot, Bool.false_eq_true, if_false]
      obtain ⟨zp, hzp, hzprot⟩ := hp
      obtain ⟨qp, hqp, _, _⟩ := hg zp hzp
      have hmem : some qp ∈ protScoresOf zs :=
        List.mem_map.mpr ⟨zp, List.mem_filter.mpr ⟨hzp, hzprot⟩, hqp⟩
      obtain ⟨pa, hpa⟩ := pandasMean_isSome hmem
      obtain ⟨c, hc⟩ : ∃ c, currentAvgOf zs = some c := by
        cases hcur : currentAvgOf zs with
        | none => rw [hcur] at hlt; exact absurd hlt (by simp [optLt])
        | some c => exact ⟨c, rfl⟩
      obtain ⟨q, hq, _, _⟩ := hg y hy
      have htgt : scaleTargetOf zs
          = some ((42 * (zs.length : ℚ) - pa * ((protScoresOf zs).length : ℚ))
            / (unprotCountOf zs : ℚ)) := by
        unfold scaleTargetOf
        rw [hpa]
        rfl
      refine ⟨round1 (clip 15 100
        (q * ((42 * (zs.length : ℚ) - pa * ((protScoresOf zs).length : ℚ))
          / (unprotCountOf zs : ℚ) / c))), ?_, ?_⟩
      · rw [hq, htgt, hc]
        rfl
      · have hb := @clip_mem 15 100
          (q * ((42 * (zs.length : ℚ) - pa * ((protScoresOf zs).length : ℚ))
            / (unprotCountOf zs : ℚ) / c)) (by norm_num)
        exact round1_mem_15_100 hb.1 hb.2
  · rw [if_neg hlt] at hz
    exact hg z hz

theorem finePass_good {k : ℕ} {zs1 : List ZoneAgg}
    (hg : ∀ z ∈ zs1, GoodScore z) :
    ∀ z ∈ finePass k zs1, GoodScore z := by
  intro z hz
  unfold finePass at hz
  split at hz
  · rename_i fa hm
    split at hz
    · obtain ⟨y, hy, rfl⟩ := List.mem_map.mp hz
      by_cases hprot : isProtected y = true
      · simp only [hprot, if_true]
        exact hg y hy
      · simp only [hprot, Bool.false_eq_true, if_false]
        obtain ⟨q, hq, _, _⟩ := hg y hy
        refine ⟨round1 (clip 15 100 (q + (42 - fa) / (k : ℚ))), ?_, ?_⟩
        · rw [hq]
          rfl
        · have hb := @clip_mem 15 100 (q + (42 - fa) / (k : ℚ)) (by norm_num)
          exact round1_mem_15_100 hb.1 hb.2
    · exact hg z hz
  · exact hg z hz

theorem scale_to_target_good {zs : List ZoneAgg}
    (hp : ∃ z ∈ zs, isProtected z = true)
    (hg : ∀ z ∈ zs, GoodScore z) :
    ∀ z ∈ scale_to_target zs, GoodScore z := by
  intro z hz
  unfold scale_to_target at hz
  by_cases hcnt : 0 < unprotCountOf zs
  · rw [if_pos hcnt] at hz
    exact finePass_good (scalePass_good hp hg) z hz
  · rw [if_neg hcnt] at hz
    exact hg z hz

theorem final_targets_good {zs : List ZoneAgg}
    (hg : ∀ z ∈ zs, GoodScore z) :
    ∀ z ∈ final_targets zs, GoodScore z := by
  intro z hz
  unfold final_targets at hz
  obtain ⟨y, hy, rfl⟩ := List.mem_map.mp hz
  split_ifs
  · exact ⟨95, rfl, by norm_num⟩
  · exact ⟨44, rfl, by norm_num⟩
  · exact hg y hy

/-- The final overwrites pin every East Zone 1 row at 95 and every New
Delhi row at 44. -/
theorem final_targets_spec (zs : List ZoneAgg) :
    ∀ z ∈ final_targets zs,
      (z.zone_name = "East Zone 1" → z.predicted_coverage_score = some 95) ∧
      (z.zone_name = "New Delhi" → z.predicted_coverage_score = some 44) := by
  intro z hz
  unfold final_targets at hz
  obtain ⟨y, _, rfl⟩ := List.mem_map.mp hz
  split_ifs with h1 h2
  · refine ⟨fun _ => rfl, fun hnd => ?_⟩
    have hy : y.zone_name = "New Delhi" := hnd
    rw [h1] at hy
    exact absurd hy (by decide)
  · refine ⟨fun hez => ?_, fun _ => rfl⟩
    have hy : y.zone_name = "East Zone 1" := hez
    exact absurd hy h1
  · exact ⟨fun h => absurd h h1, fun h => absurd h h2⟩

/-- adjust_areas only rewrites the area column: name, park count and
score survive it unchanged, whatever the generator state. -/
theorem adjust_areas_proj3 (s : ℕ) (l : List ZoneAgg) :
    ((adjust_areas s l).1).map proj3 = l.map proj3 := by
  induction l generalizing s with
  | nil => rfl
  | cons z t ih =>
      unfold adjust_areas
      by_cases hz : isProtected z = true
      · simp only [hz, if_true, List.map_cons]
        rw [ih]
      · simp only [hz, Bool.false_eq_true, if_false, List.map_cons]
        rw [ih]
        rfl

/-- Rows of the output of adjust_areas descend from rows of its input
with the same name, park count and score. -/
theorem adjust_areas_mem (s : ℕ) (l : List ZoneAgg) :
    ∀ z ∈ (adjust_areas s l).1, ∃ z0 ∈ l, proj3 z0 = proj3 z := by
  intro z hz
  have h1 : proj3 z ∈ ((adjust_areas s l).1).map proj3 :=
    List.mem_map_of_mem proj3 hz
  rw [adjust_areas_proj3] at h1
  obtain ⟨z0, hz0, he⟩ := List.mem_map.mp h1
  exact ⟨z0, hz0, he⟩

/-- Every exported park row descends from a row of the final-targets
stage carrying the same zone name, with the exported score being its
rounding. -/
theorem park_export_rows (s : ℕ) (zs : List ZoneAgg) :
    ∀ r ∈ park_export s zs,
      ∃ z0 ∈ final_targets (scale_to_target (tier_rescale (sort_by_parks
          (conditional_targets (calculate_park_coverage_score zs))))),
        r.zone_name = z0.zone_name ∧
        r.predicted_coverage_score = optRound1 z0.predicted_coverage_score := by
  intro r hr
  unfold park_export at hr
  obtain ⟨p, hp, rfl⟩ := List.mem_map.mp hr
  have hz : p.2 ∈ sort_by_score
      (adjust_for_ui_expectations s (calculate_park_coverage_score zs)) := by
    have := List.mem_map_of_mem Prod.snd hp
    rwa [List.enum_map_snd] at this
  have hz2 : p.2 ∈ adjust_for_ui_expectations s (calculate_park_coverage_score zs) :=
    (List.mem_insertionSort _).mp hz
  unfold adjust_for_ui_expectations at hz2
  obtain ⟨z0, hz0, hproj⟩ := adjust_areas_mem _ _ _ hz2
  refine ⟨z0, hz0, ?_, ?_⟩
  · exact (congrArg Prod.fst hproj).symm
  · show optRound1 p.2.predicted_coverage_score = optRound1 z0.predicted_coverage_score
    have hsc : z0.predicted_coverage_score = p.2.predicted_coverage_score :=
      congrArg (fun t => t.2.2) hproj
    rw [hsc]

end Park

/-- Claim C9: whenever the park export contains a row named East Zone 1
its exported predicted coverage score is exactly 95.0, and a row named
New Delhi is exactly 44.0, for every input and generator state, because
the final overwrites of adjust_for_ui_expectations run after all
rescaling passes and only the area synthesis follows them. -/
theorem c9_park_ui_override (s : ℕ) (zs : List Park.ZoneAgg) (r : Park.Row)
    (hr : r ∈ Park.park_export s zs) :
    (r.zone_name = "East Zone 1" → r.predicted_coverage_score = some 95) ∧
    (r.zone_name = "New Delhi" → r.predicted_coverage_score = some 44) := by
  obtain ⟨z0, hz0, hname, hscore⟩ := Park.park_export_rows s zs r hr
  have hspec := Park.final_targets_spec _ z0 hz0
  constructor
  · intro h
    rw [hname] at h
    rw [hscore, hspec.1 h]
    show some (round1 95) = some 95
    rw [round1_of_95]
  · intro h
    rw [hname] at h
    rw [hscore, hspec.2 h]
    show some (round1 44) = some 44
    rw [round1_of_44]

/-- Evaluation of the park pipeline on the singleton East Zone 1
frame. -/
theorem park_export_wParkEZ1_eq : Park.park_export 0 [wParkEZ1] = [rParkW] := by
  norm_num [Park.park_export, Park.sort_by_score, Park.scoreDescB,
    Park.adjust_for_ui_expectations, Park.adjust_areas, Park.calculate_realistic_park_area,
    npUniform, rngNext, Park.final_targets, Park.scale_to_target, Park.finePass,
    Park.scalePass, Park.currentAvgOf, Park.scaleTargetOf, Park.unprotCountOf,
    Park.protScoresOf, pandasMean, Park.tier_rescale, Park.sort_by_parks,
    Park.conditional_targets, Park.calculate_park_coverage_score, Park.isProtected,
    Park.label_of_score, Park.get_label_and_status, optBin, optClip, optRound1, optLt,
    clip, round1, round2, round_eq, listMaxQ, pyInt, pad2,
    List.insertionSort, List.orderedInsert, List.enum, List.enumFrom,
    wParkEZ1, rParkW]
  decide

theorem c9_witness :
    rParkW ∈ Park.park_export 0 [wParkEZ1] ∧
    rParkW.predicted_coverage_score = some 95 :=
  ⟨by rw [park_export_wParkEZ1_eq]; exact List.mem_singleton.mpr rfl,
   (c9_park_ui_override 0 [wParkEZ1] rParkW
     (by rw [park_export_wParkEZ1_eq]; exact List.mem_singleton.mpr rfl)).1 rfl⟩

/-- Scoring the singleton frame of c10Zone: the clipped rule-based
score is the floor 15. -/
theorem c10Zone_calc :
    Park.calculate_park_coverage_score [c10Zone] = [c10ZoneP (some 15) 4] := by
  simp only [Park.calculate_park_coverage_score, listMaxQ, List.map_cons, List.map_nil,
    c10Zone, c10ZoneP]
  norm_num [clip, round1, round_eq]

/-- The conditional targets, park sort and tier rescaling lift the lone
unprotected zone into the top tier. -/
theorem c10Zone_tier :
    Park.tier_rescale (Park.sort_by_parks (Park.conditional_targets
      [c10ZoneP (some 15) 4])) = [c10ZoneP (some 75) 4] := by
  simp [Park.conditional_targets, Park.sort_by_parks, Park.tier_rescale,
    Park.isProtected, List.insertionSort, List.orderedInsert, List.enum,
    List.enumFrom, List.filter, c10ZoneP]
  norm_num [optClip, clip]

/-- The rescaling pass turns the score into NaN: the protected
selection is empty, its mean is NaN, and the scale factor NaN reaches
every unprotected score. -/
theorem c10Zone_scale :
    Park.scale_to_target [c10ZoneP (some 75) 4] = [c10ZoneP none 4] := by
  simp [Park.scale_to_target, Park.finePass, Park.scalePass, Park.currentAvgOf,
    Park.scaleTargetOf, Park.unprotCountOf, Park.protScoresOf, pandasMean,
    Park.isProtected, optBin, optClip, optRound1, optLt, List.filter,
    List.filterMap, c10ZoneP]

/-- The whole UI adjustment on the scored c10Zone frame: the score is
NaN and the synthetic area is the minimum half square kilometre. -/
theorem c10Zone_adjust :
    Park.adjust_for_ui_expectations 0 (Park.calculate_park_coverage_score [c10Zone])
      = [c10ZoneP none (1 / 2)] := by
  unfold Park.adjust_for_ui_expectations
  rw [c10Zone_calc, c10Zone_tier, c10Zone_scale]
  simp [Park.final_targets, Park.adjust_areas, Park.calculate_realistic_park_area,
    Park.isProtected, npUniform, rngNext, c10ZoneP]
  norm_num [round2, round_eq]

/-- Evaluation of the park pipeline on the singleton frame of the
unprotected zone c10Zone: the exported score column is the NaN list. -/
theorem park_export_c10Zone_scores :
    (Park.park_export 0 [c10Zone]).map (fun r => r.predicted_coverage_score)
      = [none] := by
  unfold Park.park_export
  rw [c10Zone_adjust]
  simp [Park.sort_by_score, Park.scoreDescB, List.insertionSort, List.orderedInsert,
    List.enum, List.enumFrom, optRound1, c10ZoneP]

/-- Counterexample to claim C1: the final output of the park model can
carry a NaN coverage score — a value in no interval at all — so the
exported score does not lie in 0..100 for every model: the rescaling
pass of adjust_for_ui_expectations produces NaN on inputs without a
protected zone, and no later clamp catches it. -/
theorem c1_counterexample :
    (Park.park_export 0 [c10Zone]).map (fun r => r.predicted_coverage_score)
      = [none] ∧
    ∀ q : ℚ, ((none : Option ℚ) = some q ∧ 0 ≤ q ∧ q ≤ 100) → False :=
  ⟨park_export_c10Zone_scores, fun _ h => Option.noConfusion h.1⟩

/-- Counterexample to claim C10: on a park input whose zones are
neither East Zone 1 nor New Delhi, the rescaling pass multiplies every
unprotected score by the NaN mean of the empty protected selection, so
the exported score is NaN — not a value of at least 15. -/
theorem c10_counterexample :
    (Park.park_export 0 [c10Zone]).map (fun r => r.predicted_coverage_score)
      = [none] ∧
    ¬ (∀ r ∈ Park.park_export 0 [c10Zone], r.predicted_coverage_score ≠ none) := by
  have h1 := park_export_c10Zone_scores
  refine ⟨h1, fun hall => ?_⟩
  cases hE : Park.park_export 0 [c10Zone] with
  | nil =>
      rw [hE] at h1
      exact absurd h1 (by simp)
  | cons r t =>
      rw [hE] at h1
      simp only [List.map_cons, List.cons.injEq] at h1
      exact hall r (by rw [hE]; exact List.mem_cons_self r t) h1.1

/-- Amended claim C10: the park floor holds for every input containing
at least one protected zone (East Zone 1 or New Delhi) — every exported
score is then a present value of at least 15 — and the hospital health
access index is at least 20 unconditionally; an exported score of 0 is
unreachable in both models. -/
theorem c10_score_floors (s : ℕ) (zs : List Park.ZoneAgg)
    (hp : ∃ z ∈ zs, Park.isProtected z = true)
    (zsH : List Hospital.ZoneEst) (p : Hospital.ZoneEst × ℚ)
    (hpH : p ∈ Hospital.calculate_coverage_score zsH) :
    (∀ r ∈ Park.park_export s zs,
      ∃ q, r.predicted_coverage_score = some q ∧ 15 ≤ q) ∧
    20 ≤ p.2 := by
  constructor
  · intro r hr
    obtain ⟨z0, hz0, _, hscore⟩ := Park.park_export_rows s zs r hr
    have h0 := Park.calc_good zs
    have hp0 : ∃ z ∈ Park.calculate_park_coverage_score zs,
        Park.isProtected z = true :=
      Park.exists_prot_of_names_eq (Park.calc_names zs).symm hp
    have h1 := Park.conditional_targets_good h0
    have hp1 := Park.exists_prot_of_names_eq
      (Park.conditional_targets_names _).symm hp0
    have h2 := Park.sort_by_parks_good h1
    have hp2 := Park.sort_by_parks_prot hp1
    have h3 := Park.tier_rescale_good h2
    have hp3 := Park.exists_prot_of_names_eq (Park.tier_rescale_names _).symm hp2
    have h4 := Park.scale_to_target_good hp3 h3
    have h5 := Park.final_targets_good h4
    obtain ⟨q, hq, hq15, hq100⟩ := h5 z0 hz0
    refine ⟨round1 q, ?_, (round1_mem_15_100 hq15 hq100).1⟩
    rw [hscore, hq]
    rfl
  · exact (Hospital.calculate_coverage_score_mem zsH p hpH).1

theorem c10_witness :
    (∃ q, rParkW.predicted_coverage_score = some q ∧ 15 ≤ q) ∧ 20 ≤ wPairH.2 :=
  ⟨(c10_score_floors 0 [wParkEZ1] ⟨wParkEZ1, List.mem_singleton.mpr rfl, by decide⟩
      [wZoneH] wPairH (List.mem_singleton.mpr rfl)).1 rParkW
      (by rw [park_export_wParkEZ1_eq]; exact List.mem_singleton.mpr rfl),
   (c10_score_floors 0 [wParkEZ1] ⟨wParkEZ1, List.mem_singleton.mpr rfl, by decide⟩
      [wZoneH] wPairH (List.mem_singleton.mpr rfl)).2⟩

/-!
Claim C7: the export format contract.
-/

/-- Counterexample to claim C7: the hospital export enumerates the
sorted unique zone names with the plain decimal string of index + 1 —
its first zone id is the string 1, not the zero-padded 01 — and the
urban export rounds to two decimal places, not one. -/
theorem c7_counterexample :
    Hospital.zone_id_pairs ["East", "Central"] = [("Central", "1"), ("East", "2")] ∧
    pad2 1 = "01" ∧
    ("1" : String) ≠ "01" ∧
    Urban.exported_prediction (617 / 50) ≠ round1 (617 / 50) := by
  refine ⟨by decide, by decide, by decide, ?_⟩
  norm_num [Urban.exported_prediction, round1, round2, round_eq]

/-- Amended claim C7: park and urban zone ids are zero-padded two-digit
sequential strings, hospital zone ids are the plain decimal index + 1
over the sorted unique names; the hospital export rounds the score to
one decimal (a multiple of one tenth) and keeps the documented column
order, while the urban export rounds to two decimals. -/
theorem c7_export_format (names : List String) (s : ℕ) (zs : List Park.ZoneAgg)
    (i : ℕ) (r : Park.Row) (hr : (Park.park_export s zs)[i]? = some r) (q : ℚ) :
    ((Hospital.zone_id_pairs names).map Prod.snd
      = (List.range names.dedup.length).map (fun j => toString (j + 1))) ∧
    r.zone_id = pad2 (i + 1) ∧
    (∀ sc : List (Hospital.ZoneEst × ℚ), ∀ row ∈ Hospital.export_results sc,
      ∃ k : ℤ, row.predicted_coverage_score = (k : ℚ) / 10) ∧
    (∃ k : ℤ, Urban.exported_prediction q = (k : ℚ) / 100) ∧
    Hospital.output_cols = ["zone_id", "zone_name", "predicted_coverage_score",
      "coverage_label", "num_facilities", "total_capacity", "status"] := by
  refine ⟨?_, ?_, ?_, round2_hundredth q, rfl⟩
  · unfold Hospital.zone_id_pairs
    rw [List.map_map]
    have hc : (Prod.snd ∘ fun p : ℕ × String => (p.2, toString (p.1 + 1)))
        = (fun j => toString (j + 1)) ∘ Prod.fst := rfl
    rw [hc, ← List.map_map, List.enum_map_fst]
    have hlen : (names.dedup.insertionSort (fun a b => pyStrLe a b = true)).length
        = names.dedup.length := (List.perm_insertionSort _ _).length_eq
    rw [hlen]
  · simp only [Park.park_export, List.getElem?_map, List.getElem?_enum] at hr
    cases hs : (Park.sort_by_score (Park.adjust_for_ui_expectations s
        (Park.calculate_park_coverage_score zs)))[i]? with
    | none =>
        rw [hs] at hr
        exact Option.noConfusion hr
    | some z =>
        rw [hs] at hr
        obtain rfl := Option.some.inj hr
        rfl
  · intro sc row hrow
    unfold Hospital.export_results at hrow
    have hm := (List.mem_insertionSort _).mp hrow
    obtain ⟨zc, _, rfl⟩ := List.mem_map.mp hm
    exact round1_tenth zc.2

theorem c7_witness :
    ((Hospital.zone_id_pairs ["East", "Central"]).map Prod.snd
      = (List.range (["East", "Central"].dedup.length)).map (fun j => toString (j + 1))) ∧
    rParkW.zone_id = pad2 1 ∧
    (∃ k : ℤ, Urban.exported_prediction 55 = (k : ℚ) / 100) :=
  ⟨(c7_export_format ["East", "Central"] 0 [wParkEZ1] 0 rParkW
      (by rw [park_export_wParkEZ1_eq]; rfl) 55).1,
   (c7_export_format ["East", "Central"] 0 [wParkEZ1] 0 rParkW
      (by rw [park_export_wParkEZ1_eq]; rfl) 55).2.1,
   (c7_export_format ["East", "Central"] 0 [wParkEZ1] 0 rParkW
      (by rw [park_export_wParkEZ1_eq]; rfl) 55).2.2.2.1⟩

/-!
Claim C8: determinism of the scoring pipelines with respect to the
ambient generator state.
-/

theorem orderedInsert_map_congr {α β : Type} (f : α → β) (r : α → α → Prop)
    [DecidableRel r]
    (hr : ∀ x y x2 y2, f x = f x2 → f y = f y2 → (r x y ↔ r x2 y2)) :
    ∀ (a b : α) (l1 l2 : List α), f a = f b → l1.map f = l2.map f →
      (List.orderedInsert r a l1).map f = (List.orderedInsert r b l2).map f := by
  intro a b l1 l2 hab hl
  induction l1 generalizing l2 with
  | nil =>
      cases l2 with
      | nil => simp [hab]
      | cons y t2 => simp at hl
  | cons x t1 ih =>
      cases l2 with
      | nil => simp at hl
      | cons y t2 =>
          simp only [List.map_cons, List.cons.injEq] at hl
          obtain ⟨hxy, ht⟩ := hl
          by_cases hc : r a x
          · have hc2 : r b y := (hr a x b y hab hxy).mp hc
            rw [List.orderedInsert, List.orderedInsert, if_pos hc, if_pos hc2]
            simp [hab, hxy, ht]
          · have hc2 : ¬r b y := fun h => hc ((hr a x b y hab hxy).mpr h)
            rw [List.orderedInsert, List.orderedInsert, if_neg hc, if_neg hc2]
            simp only [List.map_cons, List.cons.injEq]
            exact ⟨hxy, ih t2 ht⟩

theorem insertionSort_map_congr {α β : Type} (f : α → β) (r : α → α → Prop)
    [DecidableRel r]
    (hr : ∀ x y x2 y2, f x = f x2 → f y = f y2 → (r x y ↔ r x2 y2)) :
    ∀ (l1 l2 : List α), l1.map f = l2.map f →
      (l1.insertionSort r).map f = (l2.insertionSort r).map f := by
  intro l1
  induction l1 with
  | nil =>
      intro l2 h
      cases l2 with
      | nil => rfl
      | cons y t2 => simp at h
  | cons x t1 ih =>
      intro l2 h
      cases l2 with
      | nil => simp at h
      | cons y t2 =>
          simp only [List.map_cons, List.cons.injEq] at h
          exact orderedInsert_map_congr f r hr x y _ _ h.1 (ih t2 h.2)

theorem enum_map_congr {α β γ : Type} (f : α → β) (F : ℕ → β → γ) :
    ∀ (k : ℕ) (l1 l2 : List α), l1.map f = l2.map f →
      (l1.enumFrom k).map (fun p => F p.1 (f p.2))
        = (l2.enumFrom k).map (fun p => F p.1 (f p.2)) := by
  intro k l1
  induction l1 generalizing k with
  | nil =>
      intro l2 h
      cases l2 with
      | nil => rfl
      | cons y t2 => simp at h
  | cons x t ih =>
      intro l2 h
      cases l2 with
      | nil => simp at h
      | cons y t2 =>
          simp only [List.map_cons, List.cons.injEq] at h
          simp only [List.enumFrom, List.map_cons]
          rw [h.1, ih (k + 1) t2 h.2]

/-- The sort comparator of create_zone_ids reads only the score, which
the projection proj3 preserves. -/
theorem scoreDescB_congr (x y x2 y2 : Park.ZoneAgg)
    (hx : Park.proj3 x = Park.proj3 x2) (hy : Park.proj3 y = Park.proj3 y2) :
    (Park.scoreDescB x y = true ↔ Park.scoreDescB x2 y2 = true) := by
  have hxs : x.predicted_coverage_score = x2.predicted_coverage_score :=
    congrArg (fun t => t.2.2) hx
  have hys : y.predicted_coverage_score = y2.predicted_coverage_score :=
    congrArg (fun t => t.2.2) hy
  unfold Park.scoreDescB
  rw [hxs, hys]

/-- Claim C8: the scoring pipelines are deterministic with respect to
the hidden generator state.  The hospital pipeline reseeds the
generator, so the whole exported table is independent of the ambient
state; in the park pipeline the generator touches only the synthetic
area column, so every exported column except the area is independent of
the ambient state. -/
theorem c8_scorer_deterministic :
    (∀ g1 g2 : ℕ, ∀ zs : List Hospital.ZoneAgg,
      Hospital.pipeline g1 zs = Hospital.pipeline g2 zs) ∧
    (∀ g1 g2 : ℕ, ∀ zs : List Park.ZoneAgg,
      (Park.park_export g1 zs).map Park.rowProj
        = (Park.park_export g2 zs).map Park.rowProj) := by
  constructor
  · intro g1 g2 zs
    rfl
  · intro g1 g2 zs
    have hadj : (Park.adjust_for_ui_expectations g1
          (Park.calculate_park_coverage_score zs)).map Park.proj3
        = (Park.adjust_for_ui_expectations g2
          (Park.calculate_park_coverage_score zs)).map Park.proj3 := by
      unfold Park.adjust_for_ui_expectations
      rw [Park.adjust_areas_proj3, Park.adjust_areas_proj3]
    have hsorted := insertionSort_map_congr Park.proj3
      (fun a b => Park.scoreDescB a b = true) scoreDescB_congr _ _ hadj
    unfold Park.park_export
    rw [List.map_map, List.map_map]
    exact enum_map_congr Park.proj3
      (fun i t => (pad2 (i + 1), t.1, optRound1 t.2.2,
        (Park.label_of_score t.2.2).1, pyInt t.2.1,
        (Park.label_of_score t.2.2).2)) 0 _ _ hsorted

end InfraVision
